import Mathlib

/-!
Verification of the reward-feedback pointing experiment (`experiment.py`,
class `reward_feedback_pointing_2025`).

The development shallowly embeds the trial engine:

* the geometric boundaries and the click-classification decision tree of
  `listen_for_click`;
* the payout table `get_payout` and the per-block bank accumulation;
* the event timeline registered in `trial_prep` (klibs' `EventManager` is an
  external dependency, so its `add_event` / `before` semantics are modelled
  from the spec);
* the three polling loops of `trial()` (premature-movement watch, reaction
  wait, movement wait) as deterministic functions of a stream of polling
  ticks, together with the trace of goggle commands (`OPEN` / `CLOSE`)
  written along the way.

Fields of the returned trial record that are pure bookkeeping (block/trial
numbers, condition label, target positions) are omitted; the record keeps the
fields the behaviour of `trial()` actually computes: `clicked_on`,
`clicked_x`, `clicked_y`, `reaction_time`, `movement_time`, `trial_earnings`,
`block_earnings`.  The Python `None` / `'NA'` sentinels are embedded as
`Option` / the string `"NA"`.
-/

namespace RFP

/-- A screen point; click events carry pixel coordinates. -/
abbrev Point := Int × Int

-- Arduino trigger values (for PLATO goggles), `OPEN = b'55'`, `CLOSE = b'56'`.
def OPEN : String := "55"

def CLOSE : String := "56"

-- Point values.
def REWARD_PAYOUT : Int := 100

def PENALTY_PAYOUT : Int := -600

def VENN_PAYOUT : Int := -500

def MISS_PAYOUT : Int := 0

def TIMEOUT_PAYOUT : Int := -700

-- Stimulus onset asynchronies (ms).
def RECT_ONSET : Nat := 1000

def CIRC_ONSET : Nat := 500

def PREVIEW_WINDOW : Nat := 300

def TIMEOUT_AFTER : Nat := 650

-- Typo-protection string constants of the source.
def START : String := "start"

def RECT : String := "rect"

def REWARD : String := "reward"

def VISION : String := "vision"

def PENALTY : String := "penalty"

def OUTSIDE : String := "outside"

def OVERLAP : String := "overlap"

def RECTANGLE_ONSET : String := "rectangle_onset"

def CIRCLE_ONSET : String := "circle_onset"

def GO_SIGNAL : String := "go_signal"

def TRIAL_TIMEOUT : String := "trial_timeout"

def NA : String := "NA"

/-- A circular boundary: centre and radius (klibs `CircleBoundary`). -/
structure CircleB where
  cx : Int
  cy : Int
  r : Int
deriving DecidableEq

/-- A rectangular boundary given by two opposite corners (klibs
`RectangleBoundary`); the experiment passes the corners in
right-top / left-bottom order. -/
structure RectB where
  x1 : Int
  y1 : Int
  x2 : Int
  y2 : Int
deriving DecidableEq

/-- Modelled from the spec: circle containment of klibs (an external
dependency, not part of this repository) is Euclidean
distance-squared ≤ radius-squared. -/
def inCircle (c : CircleB) (p : Point) : Bool :=
  decide ((p.1 - c.cx) * (p.1 - c.cx) + (p.2 - c.cy) * (p.2 - c.cy) ≤ c.r * c.r)

/-- Modelled from the spec: rectangle containment of klibs is axis-aligned
bounding-box containment using the two opposite-corner points regardless of
which corner is `p1` / `p2` (normalise before comparing). -/
def inRect (rc : RectB) (p : Point) : Bool :=
  decide (min rc.x1 rc.x2 ≤ p.1) && decide (p.1 ≤ max rc.x1 rc.x2) &&
    decide (min rc.y1 rc.y2 ≤ p.2) && decide (p.2 ≤ max rc.y1 rc.y2)

/-- A boundary is either a circle or a rectangle. -/
inductive Boundary where
  | circle (c : CircleB)
  | rect (rc : RectB)
deriving DecidableEq

def Boundary.contains : Boundary → Point → Bool
  | Boundary.circle c, p => inCircle c p
  | Boundary.rect rc, p => inRect rc p

/-- A `BoundarySet` is a labelled collection of boundaries (klibs stores them
label → boundary; labels are unique). -/
abbrev BoundarySet := List (String × Boundary)

/-- Modelled from the spec: `BoundarySet.within_boundary(label, p)` tests the
point against the boundary registered under `label` (labels unique, so the
first match is the match). -/
def within_boundary (bs : BoundarySet) (label : String) (p : Point) : Bool :=
  match List.find? (fun e => e.1 == label) bs with
  | some e => e.2.contains p
  | none => false

/-- The boundary set holding the per-trial reward / penalty circles and the
enclosing rectangle, in the insertion order used by `trial_prep`
(`add_boundaries([penalty, reward])`, the rect registered at setup). -/
def mkBS (crw cpn : CircleB) (rc : RectB) : BoundarySet :=
  [(PENALTY, Boundary.circle cpn), (REWARD, Boundary.circle crw),
    (RECT, Boundary.rect rc)]

/-- The same boundary set with the two target circles registered in the
opposite order (used to show classification ignores construction order). -/
def mkBSrev (crw cpn : CircleB) (rc : RectB) : BoundarySet :=
  [(REWARD, Boundary.circle crw), (PENALTY, Boundary.circle cpn),
    (RECT, Boundary.rect rc)]

/-- `listen_for_click` (experiment.py lines 480-507): polls clicks, takes the
first event, and classifies it by the nested decision tree; with no click it
returns the sentinel point `(-1, -1)` and no classification. -/
def listen_for_click (bs : BoundarySet) (clicks : List Point) :
    Point × Option String :=
  match clicks with
  | [] => ((-1, -1), none)
  | c :: _ =>
    let clicked_reward := within_boundary bs REWARD c
    let clicked_penalty := within_boundary bs PENALTY c
    let clicked_rect := within_boundary bs RECT c
    let clicked : Option String :=
      if clicked_rect then
        if clicked_reward && !clicked_penalty then some REWARD
        else if clicked_penalty && !clicked_reward then some PENALTY
        else if clicked_reward && clicked_penalty then some OVERLAP
        else some RECT
      else some OUTSIDE
    (c, clicked)

/-- `get_payout` (experiment.py lines 461-478). -/
def get_payout (clicked_on : Option String) : Int :=
  match clicked_on with
  | none => TIMEOUT_PAYOUT
  | some c =>
    if c == REWARD then REWARD_PAYOUT
    else if c == PENALTY then PENALTY_PAYOUT
    else if c == OVERLAP then VENN_PAYOUT
    else if c == OUTSIDE then 0
    else MISS_PAYOUT

/-- `self.bank = 0` at the start of `block()` (experiment.py line 220). -/
def block_init_bank : Int := 0

/-- `self.bank += pay` (experiment.py line 368): accumulation is plain
integer addition. -/
def accumulate (bank pay : Int) : Int := bank + pay

/-- The block total produced by accumulating a block's trial payouts
sequentially starting from the reset bank. -/
def block_total (pays : List Int) : Int := List.foldl accumulate block_init_bank pays

/-- Modelled from the spec: klibs' `EventManager.add_event(label, offset,
after)` (external dependency) resolves a deadline as the predecessor's
resolved deadline (trial start, i.e. 0, when there is none) plus the offset,
at registration time. -/
def add_event (evs : List (String × Nat)) (label : String) (offset : Nat)
    (after : Option String) : List (String × Nat) :=
  let base : Nat :=
    match after with
    | none => 0
    | some a =>
      match List.find? (fun e => e.1 == a) evs with
      | some e => e.2
      | none => 0
  evs ++ [(label, base + offset)]

/-- The resolved deadline registered under a label. -/
def deadline_of (evs : List (String × Nat)) (label : String) : Option Nat :=
  Option.map Prod.snd (List.find? (fun e => e.1 == label) evs)

/-- Modelled from the spec: `evm.before(label)` compares the monotonic trial
clock to the resolved deadline, true strictly before it. -/
def evm_before (evs : List (String × Nat)) (label : String) (t : Nat) : Bool :=
  match deadline_of evs label with
  | some d => decide (t < d)
  | none => false

/-- The event chain registered in `trial_prep` (experiment.py lines 263-272):
rectangle_onset(+1000) → circle_onset(+500) → go_signal(+300) →
trial_timeout(+650, or +30000 when practicing). -/
def trial_prep_events (practicing : Bool) : List (String × Nat) :=
  let trial_timeout : Nat := if practicing then 30000 else TIMEOUT_AFTER
  add_event
    (add_event
      (add_event
        (add_event [] RECTANGLE_ONSET RECT_ONSET none)
        CIRCLE_ONSET CIRC_ONSET (some RECTANGLE_ONSET))
      GO_SIGNAL PREVIEW_WINDOW (some CIRCLE_ONSET))
    TRIAL_TIMEOUT trial_timeout (some GO_SIGNAL)

/-- One iteration of a polling loop in `trial()`: the trial clock reading at
the tick, the release events delivered by `get_clicks(released=True)`, and
the click events delivered by `get_clicks()`. -/
structure Tick where
  time : Nat
  releases : List Point
  clicks : List Point
deriving DecidableEq

/-- The information carried by the `TrialException` abort path of `trial()`
(experiment.py lines 296-313): the clock is stopped, the admonishment is
shown, and the fixed feedback delay is waited out before the per-trial
(recoverable, non-fatal) exception is raised. -/
structure Abort where
  clock_stopped : Bool
  warning_shown : Bool
  waited_ms : Nat
deriving DecidableEq

/-- The behavioural fields of the record returned by `trial()` (experiment.py
lines 418-433).  `clicked_x = none` embeds the `'NA'` sentinel, likewise
`clicked_y`; `clicked_on` is already a string in the source (`'NA'` when no
click resolved). -/
structure TrialRecord where
  clicked_on : String
  clicked_x : Option Int
  clicked_y : Option Int
  reaction_time : Option Nat
  movement_time : Option Nat
  trial_earnings : Int
  block_earnings : Int
deriving DecidableEq

/-- The premature-movement watch loop of `trial()` (lines 296-328): while
`evm.before(GO_SIGNAL)`, any release event stops the clock, shows the
warning for the feedback delay and raises `TrialException`.  Returns the
unconsumed tick stream when the go-signal deadline is reached. -/
def prematureLoop (goDeadline fb : Nat) : List Tick → Except Abort (List Tick)
  | [] => Except.ok []
  | t :: ts =>
    if t.time < goDeadline then
      if t.releases.isEmpty then prematureLoop goDeadline fb ts
      else Except.error ⟨true, true, fb⟩
    else Except.ok (t :: ts)

/-- The reaction-wait loop of `trial()` (lines 336-347): while `rt is None
and evm.before(TRIAL_TIMEOUT)`, poll for a release; on release record
`rt = trial_time_ms - tone_play_time` and, in the reward condition, write
`CLOSE` to the goggles.  Returns the reaction time (if any), the goggle
commands written, and the unconsumed ticks. -/
def rtLoop (timeout tone : Nat) (cond : String) :
    List Tick → Option Nat × List String × List Tick
  | [] => (none, [], [])
  | t :: ts =>
    if t.time < timeout then
      if t.releases.isEmpty then rtLoop timeout tone cond ts
      else (some (t.time - tone), if cond == REWARD then [CLOSE] else [], ts)
    else (none, [], t :: ts)

/-- The movement-wait loop of `trial()` (lines 349-357): while `mt is None
and evm.before(TRIAL_TIMEOUT)`, call `listen_for_click`; `clicked_at` and
`clicked_on` are overwritten on every poll, and on a resolved classification
`mt = trial_time_ms - rt - tone_play_time`.  The accumulators carry the
current `clicked_at` / `clicked_on` values (initially `None`). -/
def mtLoop (bs : BoundarySet) (timeout tone rt : Nat) :
    List Tick → Option Point → Option String →
      Option Nat × Option Point × Option String
  | [], ca, co => (none, ca, co)
  | t :: ts, ca, co =>
    if t.time < timeout then
      let r := listen_for_click bs t.clicks
      if r.2.isSome then (some (t.time - rt - tone), some r.1, r.2)
      else mtLoop bs timeout tone rt ts (some r.1) r.2
    else
      (none, ca, co)

/-- `trial()` (experiment.py lines 290-433) as a function of the condition,
the feedback delay, the resolved go-signal and timeout deadlines, the
boundary set, the incoming bank, and the polling-tick stream.  Returns
either the abort information of the `TrialException` path or the trial
record together with the trace of goggle commands written during the trial
body.  The tone plays when the premature loop exits; `tone_play_time` is the
clock reading at that tick. -/
def runTrial (cond : String) (fb goDeadline timeout : Nat) (bs : BoundarySet)
    (bank : Int) (ticks : List Tick) :
    Except Abort (TrialRecord × List String) :=
  match prematureLoop goDeadline fb ticks with
  | Except.error a => Except.error a
  | Except.ok rest =>
    let tone : Nat :=
      match rest with
      | [] => goDeadline
      | t :: _ => t.time
    match rtLoop timeout tone cond rest with
    | (none, tr1, _) =>
      let pay := get_payout none
      Except.ok (⟨NA, none, none, none, none, pay, bank + pay⟩, tr1)
    | (some rt, tr1, rest2) =>
      match mtLoop bs timeout tone rt rest2 none none with
      | (mtv, ca, co) =>
        let pay := get_payout co
        let tr2 : List String :=
          match co with
          | some _ => if cond == "practice" then [] else [OPEN]
          | none => []
        Except.ok
          (⟨Option.getD co NA, Option.map Prod.fst ca, Option.map Prod.snd ca,
            some rt, mtv, pay, bank + pay⟩, tr1 ++ tr2)

/-- Reaction time recorded by a trial run (`none` on the abort path). -/
def rtOf (e : Except Abort (TrialRecord × List String)) : Option Nat :=
  match e with
  | Except.ok r => r.1.reaction_time
  | Except.error _ => none

/-- Movement time recorded by a trial run. -/
def mtOf (e : Except Abort (TrialRecord × List String)) : Option Nat :=
  match e with
  | Except.ok r => r.1.movement_time
  | Except.error _ => none

/-- Classification string recorded by a trial run. -/
def clickedOnOf (e : Except Abort (TrialRecord × List String)) : Option String :=
  match e with
  | Except.ok r => some r.1.clicked_on
  | Except.error _ => none

/-- Recorded click x-coordinate (`none` embeds the `'NA'` sentinel). -/
def clickedXOf (e : Except Abort (TrialRecord × List String)) : Option Int :=
  match e with
  | Except.ok r => r.1.clicked_x
  | Except.error _ => none

/-- Recorded click y-coordinate (`none` embeds the `'NA'` sentinel). -/
def clickedYOf (e : Except Abort (TrialRecord × List String)) : Option Int :=
  match e with
  | Except.ok r => r.1.clicked_y
  | Except.error _ => none

/-- The occlusion state after applying one goggle command. -/
def occlusion_step (s cmd : String) : String :=
  if cmd == OPEN then "open" else if cmd == CLOSE then "closed" else s

/-- The occlusion state after a trace of goggle commands, starting from a
given state (`trial_prep` writes `OPEN`, so a trial starts open). -/
def occlusion_after (init : String) (cmds : List String) : String :=
  List.foldl occlusion_step init cmds

/-- Concrete boundary set for demonstration runs: reward circle at (10,0),
penalty circle at (-10,0), both of radius 5, inside the rectangle
[-100,100] × [-100,100]. -/
def bs_demo : BoundarySet :=
  mkBS ⟨10, 0, 5⟩ ⟨-10, 0, 5⟩ ⟨-100, -100, 100, 100⟩

/-- Tick stream of a reward-condition trial whose control is released at
1900 ms (after the 1800 ms go signal) but where no click resolves before the
2450 ms trial timeout. -/
def ticks_release_then_timeout : List Tick :=
  [⟨1800, [], []⟩, ⟨1900, [(0, 900)], []⟩, ⟨2000, [], []⟩, ⟨2450, [], []⟩]

/-! ### Helper lemmas about the polling loops -/

theorem prematureLoop_skip (g fb : Nat) (t : Tick) (ts : List Tick)
    (h1 : t.time < g) (h2 : t.releases = []) :
    prematureLoop g fb (t :: ts) = prematureLoop g fb ts := by
  simp [prematureLoop, h1, h2]

theorem prematureLoop_abort (g fb : Nat) (t : Tick) (ts : List Tick)
    (h1 : t.time < g) (h2 : t.releases ≠ []) :
    prematureLoop g fb (t :: ts) = Except.error ⟨true, true, fb⟩ := by
  cases hr : t.releases with
  | nil => exact absurd hr h2
  | cons a as => simp [prematureLoop, h1, hr]

theorem prematureLoop_exit (g fb : Nat) (t : Tick) (ts : List Tick)
    (h : ¬ t.time < g) :
    prematureLoop g fb (t :: ts) = Except.ok (t :: ts) := by
  simp [prematureLoop, h]

theorem prematureLoop_no_release (g fb : Nat) :
    ∀ ticks : List Tick, (∀ t ∈ ticks, t.releases = []) →
      prematureLoop g fb ticks =
        Except.ok (List.dropWhile (fun t => decide (t.time < g)) ticks)
  | [], _ => rfl
  | t :: ts, h => by
    by_cases hg : t.time < g
    · rw [prematureLoop_skip g fb t ts hg (h t (by simp)),
        prematureLoop_no_release g fb ts (fun s hs => h s (by simp [hs]))]
      simp [List.dropWhile_cons, hg]
    · rw [prematureLoop_exit g fb t ts hg]
      simp [List.dropWhile_cons, hg]

theorem prematureLoop_first_release (g fb : Nat) :
    ∀ (pre : List Tick) (t : Tick) (rest : List Tick),
      (∀ s ∈ pre, s.time < g ∧ s.releases = []) →
      t.time < g → t.releases ≠ [] →
      prematureLoop g fb (pre ++ t :: rest) = Except.error ⟨true, true, fb⟩
  | [], t, rest, _, h1, h2 => prematureLoop_abort g fb t rest h1 h2
  | s :: pre, t, rest, hp, h1, h2 => by
    have hs := hp s (by simp)
    rw [List.cons_append, prematureLoop_skip g fb s _ hs.1 hs.2]
    exact prematureLoop_first_release g fb pre t rest
      (fun x hx => hp x (by simp [hx])) h1 h2

theorem rtLoop_skip (timeout tone : Nat) (cond : String) (t : Tick)
    (ts : List Tick) (h1 : t.time < timeout) (h2 : t.releases = []) :
    rtLoop timeout tone cond (t :: ts) = rtLoop timeout tone cond ts := by
  simp [rtLoop, h1, h2]

theorem rtLoop_release (timeout tone : Nat) (cond : String) (t : Tick)
    (ts : List Tick) (h1 : t.time < timeout) (h2 : t.releases ≠ []) :
    rtLoop timeout tone cond (t :: ts) =
      (some (t.time - tone), if cond == REWARD then [CLOSE] else [], ts) := by
  cases hr : t.releases with
  | nil => exact absurd hr h2
  | cons a as => simp [rtLoop, h1, hr]

theorem rtLoop_exit (timeout tone : Nat) (cond : String) (t : Tick)
    (ts : List Tick) (h : ¬ t.time < timeout) :
    rtLoop timeout tone cond (t :: ts) = (none, [], t :: ts) := by
  simp [rtLoop, h]

theorem rtLoop_no_release (timeout tone : Nat) (cond : String) :
    ∀ ticks : List Tick, (∀ t ∈ ticks, t.releases = []) →
      rtLoop timeout tone cond ticks =
        (none, [], List.dropWhile (fun t => decide (t.time < timeout)) ticks)
  | [], _ => rfl
  | t :: ts, h => by
    by_cases hg : t.time < timeout
    · rw [rtLoop_skip timeout tone cond t ts hg (h t (by simp)),
        rtLoop_no_release timeout tone cond ts (fun s hs => h s (by simp [hs]))]
      simp [List.dropWhile_cons, hg]
    · rw [rtLoop_exit timeout tone cond t ts hg]
      simp [List.dropWhile_cons, hg]

theorem mtLoop_timeout (bs : BoundarySet) (timeout tone rt : Nat) (t : Tick)
    (ts : List Tick) (ca : Option Point) (co : Option String)
    (h : ¬ t.time < timeout) :
    mtLoop bs timeout tone rt (t :: ts) ca co = (none, ca, co) := by
  simp [mtLoop, h]

theorem mtLoop_noclick_step (bs : BoundarySet) (timeout tone rt : Nat)
    (t : Tick) (ts : List Tick) (ca : Option Point) (co : Option String)
    (h1 : t.time < timeout) (h2 : t.clicks = []) :
    mtLoop bs timeout tone rt (t :: ts) ca co =
      mtLoop bs timeout tone rt ts (some (-1, -1)) none := by
  simp [mtLoop, h1, h2, listen_for_click]

theorem mtLoop_click_step (bs : BoundarySet) (timeout tone rt : Nat)
    (t : Tick) (ts : List Tick) (ca : Option Point) (co : Option String)
    (c : Point) (l : String) (h1 : t.time < timeout)
    (h2 : listen_for_click bs t.clicks = (c, some l)) :
    mtLoop bs timeout tone rt (t :: ts) ca co =
      (some (t.time - rt - tone), some c, some l) := by
  simp [mtLoop, h1, h2]

theorem mem_of_mem_dropWhile (p : Tick → Bool) :
    ∀ (l : List Tick) (a : Tick), a ∈ List.dropWhile p l → a ∈ l
  | [], _, h => by simp at h
  | t :: ts, a, h => by
    by_cases hp : p t
    · rw [List.dropWhile_cons, if_pos hp] at h
      exact List.mem_cons_of_mem t (mem_of_mem_dropWhile p ts a h)
    · rw [List.dropWhile_cons, if_neg hp] at h
      exact h

/-- A trial in which no release event ever arrives runs both response waits
to the timeout and returns the `NoClick` record (only the release events
matter: the movement wait never runs its body). -/
theorem runTrial_no_events (cond : String) (fb goD timeout : Nat)
    (bs : BoundarySet) (bank : Int) (ticks : List Tick)
    (h : ∀ t ∈ ticks, t.releases = []) :
    runTrial cond fb goD timeout bs bank ticks =
      Except.ok
        (⟨NA, none, none, none, none, TIMEOUT_PAYOUT, bank + TIMEOUT_PAYOUT⟩,
          []) := by
  have hpre := prematureLoop_no_release goD fb ticks h
  have hrest : ∀ t ∈ List.dropWhile (fun t => decide (t.time < goD)) ticks,
      t.releases = [] :=
    fun t ht => h t (mem_of_mem_dropWhile _ ticks t ht)
  have hrt := fun tone =>
    rtLoop_no_release timeout tone cond _ hrest
  simp [runTrial, hpre, hrt, get_payout]

theorem within_mkBS_reward (crw cpn : CircleB) (rc : RectB) (p : Point) :
    within_boundary (mkBS crw cpn rc) REWARD p = inCircle crw p := rfl

theorem within_mkBS_penalty (crw cpn : CircleB) (rc : RectB) (p : Point) :
    within_boundary (mkBS crw cpn rc) PENALTY p = inCircle cpn p := rfl

theorem within_mkBS_rect (crw cpn : CircleB) (rc : RectB) (p : Point) :
    within_boundary (mkBS crw cpn rc) RECT p = inRect rc p := rfl

theorem listen_mkBS_rev_eq (crw cpn : CircleB) (rc : RectB) (p : Point) :
    listen_for_click (mkBS crw cpn rc) [p] =
      listen_for_click (mkBSrev crw cpn rc) [p] := rfl

/-! ### Claim theorems -/

/-- C1: the claim says every exit path of `trial()` issues the goggles
`OPEN` command before the outcome record is returned, so occlusion ends
`Open`.  The code violates this: on a reward-condition trial whose control
is released (goggles written `CLOSE`) but where no click resolves before the
trial timeout, `trial()` returns its record having written only `CLOSE` —
the unconditional re-open is commented out in the source — so the occlusion
state at trial end is closed. -/
theorem C1_open_not_issued_on_timeout_path :
    runTrial REWARD 1000 1800 2450 bs_demo 0 ticks_release_then_timeout =
      Except.ok
        (⟨NA, some (-1), some (-1), some 100, none, TIMEOUT_PAYOUT,
            TIMEOUT_PAYOUT⟩,
          [CLOSE]) ∧
    OPEN ∉ [CLOSE] ∧
    occlusion_after "open" [CLOSE] = "closed" := by
  refine ⟨?_, by decide, rfl⟩
  rfl

/-- C2: every click point outside the enclosing rectangle is classified
`outside`, even if it lies inside the reward or penalty circle: the
rectangle test dominates the circle tests. -/
theorem C2_outside_rect_dominates (crw cpn : CircleB) (rc : RectB) (p : Point)
    (h : inRect rc p = false) :
    (listen_for_click (mkBS crw cpn rc) [p]).2 = some OUTSIDE := by
  simp [listen_for_click, within_mkBS_rect, h]

/-- Witness for C2 at a concrete point inside both target circles but
outside the rectangle. -/
theorem C2_outside_rect_dominates_witness :
    inRect ⟨10, 10, 20, 20⟩ ((0, 0) : Point) = false ∧
    inCircle ⟨0, 0, 5⟩ ((0, 0) : Point) = true ∧
    inCircle ⟨1, 0, 5⟩ ((0, 0) : Point) = true ∧
    (listen_for_click (mkBS ⟨0, 0, 5⟩ ⟨1, 0, 5⟩ ⟨10, 10, 20, 20⟩)
        [(0, 0)]).2 = some OUTSIDE :=
  ⟨by decide, by decide, by decide,
    C2_outside_rect_dominates ⟨0, 0, 5⟩ ⟨1, 0, 5⟩ ⟨10, 10, 20, 20⟩ (0, 0)
      (by decide)⟩

/-- C3: inside the enclosing rectangle, a point in both circles classifies
as `overlap`, a point in exactly one circle classifies as that circle's
label, a point in neither classifies as the inside-rect miss value `rect`;
and the classification does not depend on the order in which the two target
circles were registered. -/
theorem C3_inside_rect_cases (crw cpn : CircleB) (rc : RectB) (p : Point)
    (h : inRect rc p = true) :
    (listen_for_click (mkBS crw cpn rc) [p]).2 =
      (if inCircle crw p then
        if inCircle cpn p then some OVERLAP else some REWARD
      else if inCircle cpn p then some PENALTY else some RECT) ∧
    listen_for_click (mkBS crw cpn rc) [p] =
      listen_for_click (mkBSrev crw cpn rc) [p] := by
  refine ⟨?_, listen_mkBS_rev_eq crw cpn rc p⟩
  cases hr : inCircle crw p <;> cases hpn : inCircle cpn p <;>
    simp [listen_for_click, within_mkBS_rect, within_mkBS_reward,
      within_mkBS_penalty, h, hr, hpn]

/-- Witness for C3 at a concrete point in the overlap of the two circles. -/
theorem C3_inside_rect_cases_witness :
    inRect ⟨-100, -100, 100, 100⟩ ((0, 0) : Point) = true ∧
    inCircle ⟨2, 0, 5⟩ ((0, 0) : Point) = true ∧
    inCircle ⟨-2, 0, 5⟩ ((0, 0) : Point) = true ∧
    (listen_for_click (mkBS ⟨2, 0, 5⟩ ⟨-2, 0, 5⟩ ⟨-100, -100, 100, 100⟩)
        [(0, 0)]).2 = some OVERLAP ∧
    listen_for_click (mkBS ⟨2, 0, 5⟩ ⟨-2, 0, 5⟩ ⟨-100, -100, 100, 100⟩)
        [(0, 0)] =
      listen_for_click (mkBSrev ⟨2, 0, 5⟩ ⟨-2, 0, 5⟩ ⟨-100, -100, 100, 100⟩)
        [(0, 0)] :=
  ⟨by decide, by decide, by decide,
    ((C3_inside_rect_cases ⟨2, 0, 5⟩ ⟨-2, 0, 5⟩ ⟨-100, -100, 100, 100⟩ (0, 0)
        (by decide)).1).trans (by decide),
    (C3_inside_rect_cases ⟨2, 0, 5⟩ ⟨-2, 0, 5⟩ ⟨-100, -100, 100, 100⟩ (0, 0)
        (by decide)).2⟩

/-- C4: a response window that elapses with no release and no click
completes the trial (no exception) with `clicked_on = 'NA'`,
`reaction_time = None`, `movement_time = None`, and the configured
timeout payout. -/
theorem C4_timeout_is_defined_outcome (cond : String) (fb goD timeout : Nat)
    (bs : BoundarySet) (bank : Int) (ticks : List Tick)
    (h : ∀ t ∈ ticks, t.releases = [] ∧ t.clicks = []) :
    runTrial cond fb goD timeout bs bank ticks =
      Except.ok
        (⟨NA, none, none, none, none, TIMEOUT_PAYOUT, bank + TIMEOUT_PAYOUT⟩,
          []) :=
  runTrial_no_events cond fb goD timeout bs bank ticks (fun t ht => (h t ht).1)

/-- Witness for C4 on a concrete event-free tick stream. -/
theorem C4_timeout_is_defined_outcome_witness :
    (∀ t ∈ ([⟨1800, [], []⟩, ⟨2000, [], []⟩, ⟨2450, [], []⟩] : List Tick),
      t.releases = [] ∧ t.clicks = []) ∧
    runTrial VISION 1000 1800 2450 bs_demo 0
        [⟨1800, [], []⟩, ⟨2000, [], []⟩, ⟨2450, [], []⟩] =
      Except.ok
        (⟨NA, none, none, none, none, TIMEOUT_PAYOUT, 0 + TIMEOUT_PAYOUT⟩,
          []) :=
  ⟨by decide,
    C4_timeout_is_defined_outcome VISION 1000 1800 2450 bs_demo 0 _ (by decide)⟩

/-- C5: a release event arriving while the trial clock is still before the
go-signal deadline aborts the trial recoverably: the clock is stopped, the
warning is shown for the fixed feedback delay, and the per-trial exception
carries no classification or payout. -/
theorem C5_premature_release_aborts (cond : String) (fb goD timeout : Nat)
    (bs : BoundarySet) (bank : Int) (pre : List Tick) (t : Tick)
    (rest : List Tick) (hpre : ∀ s ∈ pre, s.time < goD ∧ s.releases = [])
    (h1 : t.time < goD) (h2 : t.releases ≠ []) :
    runTrial cond fb goD timeout bs bank (pre ++ t :: rest) =
      Except.error ⟨true, true, fb⟩ := by
  simp [runTrial, prematureLoop_first_release goD fb pre t rest hpre h1 h2]

/-- Witness for C5 on a concrete premature release at 500 ms. -/
theorem C5_premature_release_aborts_witness :
    (⟨500, [(3, 4)], []⟩ : Tick).time < 1800 ∧
    (⟨500, [(3, 4)], []⟩ : Tick).releases ≠ [] ∧
    runTrial REWARD 1000 1800 2450 bs_demo 0
        ([⟨100, [], []⟩] ++ ⟨500, [(3, 4)], []⟩ :: []) =
      Except.error ⟨true, true, 1000⟩ :=
  ⟨by decide, by decide,
    C5_premature_release_aborts REWARD 1000 1800 2450 bs_demo 0
      [⟨100, [], []⟩] ⟨500, [(3, 4)], []⟩ [] (by decide) (by decide)
      (by decide)⟩

/-- C6: on a completed trial, the recorded reaction time is the elapsed time
from the go tone to the release tick, and the recorded movement time is
`now - reaction_time - tone_time`, i.e. the elapsed time from the release
tick to the resolved click. -/
theorem C6_rt_mt_timing (cond : String) (fb goD timeout tg tr tc : Nat)
    (bs : BoundarySet) (bank : Int) (q p : Point) (l : String)
    (h1 : goD ≤ tg) (h2 : tg < timeout) (h3 : tr < timeout)
    (h4 : tc < timeout) (h5 : tg ≤ tr)
    (h6 : (listen_for_click bs [p]).2 = some l) :
    rtOf (runTrial cond fb goD timeout bs bank
        [⟨tg, [], []⟩, ⟨tr, [q], []⟩, ⟨tc, [], [p]⟩]) = some (tr - tg) ∧
    mtOf (runTrial cond fb goD timeout bs bank
        [⟨tg, [], []⟩, ⟨tr, [q], []⟩, ⟨tc, [], [p]⟩]) = some (tc - tr) ∧
    clickedOnOf (runTrial cond fb goD timeout bs bank
        [⟨tg, [], []⟩, ⟨tr, [q], []⟩, ⟨tc, [], [p]⟩]) = some l := by
  have hl : listen_for_click bs [p] = (p, some l) := by
    rw [Prod.ext_iff]
    exact ⟨rfl, h6⟩
  have hpre := prematureLoop_exit goD fb ⟨tg, [], []⟩
    [⟨tr, [q], []⟩, ⟨tc, [], [p]⟩] (Nat.not_lt.mpr h1)
  have hsk := rtLoop_skip timeout tg cond ⟨tg, [], []⟩
    [⟨tr, [q], []⟩, ⟨tc, [], [p]⟩] h2 rfl
  have hrel := rtLoop_release timeout tg cond ⟨tr, [q], []⟩ [⟨tc, [], [p]⟩]
    h3 (by simp)
  have hmt := mtLoop_click_step bs timeout tg (tr - tg) ⟨tc, [], [p]⟩ []
    none none p l h4 hl
  refine ⟨?_, ?_, ?_⟩
  · simp [runTrial, hpre, hsk, hrel, hmt, rtOf]
  · simp [runTrial, hpre, hsk, hrel, hmt, mtOf]
    omega
  · simp [runTrial, hpre, hsk, hrel, hmt, clickedOnOf]

/-- Witness for C6: go tone at 1800 ms, release at 1920 ms, reward click at
2150 ms give reaction time 120 ms and movement time 230 ms. -/
theorem C6_rt_mt_timing_witness :
    rtOf (runTrial VISION 1000 1800 2450 bs_demo 0
        [⟨1800, [], []⟩, ⟨1920, [(0, 900)], []⟩, ⟨2150, [], [(10, 0)]⟩]) =
      some 120 ∧
    mtOf (runTrial VISION 1000 1800 2450 bs_demo 0
        [⟨1800, [], []⟩, ⟨1920, [(0, 900)], []⟩, ⟨2150, [], [(10, 0)]⟩]) =
      some 230 ∧
    clickedOnOf (runTrial VISION 1000 1800 2450 bs_demo 0
        [⟨1800, [], []⟩, ⟨1920, [(0, 900)], []⟩, ⟨2150, [], [(10, 0)]⟩]) =
      some REWARD :=
  C6_rt_mt_timing VISION 1000 1800 2450 1800 1920 2150 bs_demo 0 (0, 900)
    (10, 0) REWARD (by decide) (by decide) (by decide) (by decide)
    (by decide) (by decide)

/-- C7: the deadlines of the chain registered in `trial_prep` are prefix
sums — rectangle_onset at 1000 ms, circle_onset at 1500 ms, go_signal at
1800 ms and trial_timeout at 2450 ms from trial start (non-practice) — and
`before(label)` is true strictly before the resolved deadline and false at
it. -/
theorem C7_timeline_prefix_sums :
    deadline_of (trial_prep_events false) RECTANGLE_ONSET = some 1000 ∧
    deadline_of (trial_prep_events false) CIRCLE_ONSET = some 1500 ∧
    deadline_of (trial_prep_events false) GO_SIGNAL = some 1800 ∧
    deadline_of (trial_prep_events false) TRIAL_TIMEOUT = some 2450 ∧
    (∀ t : Nat, evm_before (trial_prep_events false) RECTANGLE_ONSET t =
      decide (t < 1000)) ∧
    (∀ t : Nat, evm_before (trial_prep_events false) CIRCLE_ONSET t =
      decide (t < 1500)) ∧
    (∀ t : Nat, evm_before (trial_prep_events false) GO_SIGNAL t =
      decide (t < 1800)) ∧
    (∀ t : Nat, evm_before (trial_prep_events false) TRIAL_TIMEOUT t =
      decide (t < 2450)) :=
  ⟨rfl, rfl, rfl, rfl, fun _ => rfl, fun _ => rfl, fun _ => rfl,
    fun _ => rfl⟩

theorem foldl_accumulate (ps : List Int) :
    ∀ a : Int, List.foldl accumulate a ps = a + ps.sum := by
  induction ps with
  | nil => intro a; simp [accumulate]
  | cons x xs ih =>
    intro a
    simp [List.foldl_cons, accumulate, ih, List.sum_cons]
    ring

/-- C8: the bank is reset to 0 at block start, accumulation is plain integer
addition, and the block total is order-independent: any permutation of a
block's payouts accumulates to the same total. -/
theorem C8_bank_accumulation (ps qs : List Int) (h : List.Perm ps qs) :
    block_init_bank = 0 ∧ (∀ b pay : Int, accumulate b pay = b + pay) ∧
    block_total ps = ps.sum ∧ block_total ps = block_total qs := by
  refine ⟨rfl, fun _ _ => rfl, ?_, ?_⟩
  · simp [block_total, block_init_bank, foldl_accumulate]
  · simp [block_total, block_init_bank, foldl_accumulate, h.sum_eq]

/-- Witness for C8 on a concrete permutation of payouts. -/
theorem C8_bank_accumulation_witness :
    List.Perm [(100 : Int), -600, -500] [-500, 100, -600] ∧
    block_total [(100 : Int), -600, -500] =
      block_total [-500, 100, -600] :=
  ⟨by decide,
    (C8_bank_accumulation [100, -600, -500] [-500, 100, -600]
      (by decide)).2.2.2⟩

/-- C9: when a poll returns several simultaneous click events,
`listen_for_click` uses exactly the first event — the result is the same as
if only the first event had arrived — and it returns normally rather than
terminating. -/
theorem C9_first_click_selected (bs : BoundarySet) (c : Point)
    (rest : List Point) :
    listen_for_click bs (c :: rest) = listen_for_click bs [c] := rfl

/-- C10: a poll with no click events yields the point `(-1, -1)` with no
classification; hence a trial whose control is released but where no click
resolves before the timeout records `clicked_x = clicked_y = -1` with
`clicked_on = 'NA'`, while a trial with no release at all records the `'NA'`
sentinel (here `none`) for both coordinates. -/
theorem C10_noclick_sentinels (cond : String) (fb goD timeout tr t2 t3 : Nat)
    (bs : BoundarySet) (bank : Int) (q : Point) (ticks : List Tick)
    (h1 : goD ≤ tr) (h2 : tr < timeout) (h3 : t2 < timeout)
    (h4 : timeout ≤ t3) (h5 : ∀ t ∈ ticks, t.releases = []) :
    listen_for_click bs [] = ((-1, -1), none) ∧
    (clickedXOf (runTrial cond fb goD timeout bs bank
        [⟨tr, [q], []⟩, ⟨t2, [], []⟩, ⟨t3, [], []⟩]) = some (-1) ∧
      clickedYOf (runTrial cond fb goD timeout bs bank
        [⟨tr, [q], []⟩, ⟨t2, [], []⟩, ⟨t3, [], []⟩]) = some (-1) ∧
      clickedOnOf (runTrial cond fb goD timeout bs bank
        [⟨tr, [q], []⟩, ⟨t2, [], []⟩, ⟨t3, [], []⟩]) = some NA) ∧
    (clickedXOf (runTrial cond fb goD timeout bs bank ticks) = none ∧
      clickedYOf (runTrial cond fb goD timeout bs bank ticks) = none ∧
      clickedOnOf (runTrial cond fb goD timeout bs bank ticks) = some NA) := by
  refine ⟨rfl, ?_, ?_⟩
  · have hpre := prematureLoop_exit goD fb ⟨tr, [q], []⟩
      [⟨t2, [], []⟩, ⟨t3, [], []⟩] (Nat.not_lt.mpr h1)
    have hrel := rtLoop_release timeout tr cond ⟨tr, [q], []⟩
      [⟨t2, [], []⟩, ⟨t3, [], []⟩] h2 (by simp)
    have hstep := mtLoop_noclick_step bs timeout tr 0 ⟨t2, [], []⟩
      [⟨t3, [], []⟩] none none h3 rfl
    have hto := mtLoop_timeout bs timeout tr 0 ⟨t3, [], []⟩ []
      (some (-1, -1)) none (Nat.not_lt.mpr h4)
    refine ⟨?_, ?_, ?_⟩ <;>
      simp [runTrial, hpre, hrel, hstep, hto, clickedXOf, clickedYOf,
        clickedOnOf]
  · have hr := runTrial_no_events cond fb goD timeout bs bank ticks h5
    exact ⟨by simp [hr, clickedXOf], by simp [hr, clickedYOf],
      by simp [hr, clickedOnOf]⟩

/-- Witness for C10 on concrete tick streams. -/
theorem C10_noclick_sentinels_witness :
    listen_for_click bs_demo [] = ((-1, -1), none) ∧
    (clickedXOf (runTrial REWARD 1000 1800 2450 bs_demo 0
        [⟨1900, [(0, 900)], []⟩, ⟨2000, [], []⟩, ⟨2450, [], []⟩]) =
        some (-1) ∧
      clickedYOf (runTrial REWARD 1000 1800 2450 bs_demo 0
        [⟨1900, [(0, 900)], []⟩, ⟨2000, [], []⟩, ⟨2450, [], []⟩]) =
        some (-1) ∧
      clickedOnOf (runTrial REWARD 1000 1800 2450 bs_demo 0
        [⟨1900, [(0, 900)], []⟩, ⟨2000, [], []⟩, ⟨2450, [], []⟩]) =
        some NA) ∧
    (clickedXOf (runTrial REWARD 1000 1800 2450 bs_demo 0
        [⟨1800, [], []⟩, ⟨2450, [], []⟩]) = none ∧
      clickedYOf (runTrial REWARD 1000 1800 2450 bs_demo 0
        [⟨1800, [], []⟩, ⟨2450, [], []⟩]) = none ∧
      clickedOnOf (runTrial REWARD 1000 1800 2450 bs_demo 0
        [⟨1800, [], []⟩, ⟨2450, [], []⟩]) = some NA) :=
  C10_noclick_sentinels REWARD 1000 1800 2450 1900 2000 2450 bs_demo 0
    (0, 900) [⟨1800, [], []⟩, ⟨2450, [], []⟩] (by decide) (by decide)
    (by decide) (by decide) (by decide)

end RFP
